import Mathlib

/-!
Verification of the connect wrapper of this repository
(src/components/connect.js) against its natural-language specification.

Modelling conventions (shallow embedding of the JavaScript source):
* A JS plain object is an association list from string keys to opaque
  reference tokens (`Nat`); JS reference identity (the strict-equality
  comparison used throughout the source) is Nat equality on tokens.
* A store state snapshot is a reference token (`Nat`), compared by identity.
* A JS function value is a record of its declared parameter count
  (the JS function length property, inspected by the source at
  connect.js:181 and connect.js:214) together with its behaviour; a call
  that omits the second argument passes `none` for it (JS undefined).
* Code that may throw returns `Except Nat α` (the error value is a token);
  a computation that both mutates the instance and may throw returns the
  mutated state alongside the `Except`, matching the mutation-before-throw
  behaviour of the source.
* The mutable fields of a live Connect instance form `ConnectState`;
  each method of the class becomes a state-passing function.  `render`,
  `handleChange` and the lifecycle methods additionally return a trace of
  observable events (store reads, mapper invocations, element creation,
  scheduled re-renders) so that temporal claims can be stated.
-/

/-- Association list standing for a JS plain object: string keys mapped to
opaque reference tokens (JS values compared by identity are modelled as
`Nat`). -/
abbrev JsObj := List (String × Nat)

/-- Property lookup on a JS object; the first binding for a key wins. -/
def JsObj.get : JsObj → String → Option Nat
  | [], _ => none
  | (k, v) :: rest, key => if k = key then some v else JsObj.get rest key

/-- Whether the object has an own property named `key`. -/
def JsObj.hasKey (o : JsObj) (key : String) : Bool :=
  (o.get key).isSome

/-- JS object spread `{...a, ...b}`: the entries of `a` come first with the
values of `b` on shared keys, followed by the entries of `b` whose keys do
not occur in `a`. -/
def JsObj.spread (a b : JsObj) : JsObj :=
  a.map (fun kv => (kv.1, (b.get kv.1).getD kv.2)) ++
    b.filter (fun kv => ! a.hasKey kv.1)

/-- Modelled from the spec: the repository's shallowEqual utility
(src/utils/shallowEqual.js, imported by connect.js but not included in the
provided sources).  Per the spec glossary, two mappings are shallow-equal
when they have the same keys and reference-equal values at every key. -/
def shallowEqual (a b : JsObj) : Bool :=
  (a.map (fun kv => kv.1)).all (fun k => b.get k == a.get k) &&
    (b.map (fun kv => kv.1)).all (fun k => a.get k == b.get k)

/-- connect.js:39, `defaultMergeProps`: the object spread
`{...parentProps, ...stateProps, ...dispatchProps}`. -/
def defaultMergeProps (stateProps dispatchProps parentProps : JsObj) : JsObj :=
  (parentProps.spread stateProps).spread dispatchProps

/-- Observable events emitted by the modelled instance methods. -/
inductive Ev where
  /-- a call to store.subscribe (connect.js:262) -/
  | subscribeStore
  /-- a call to store.getState() inside the change listener (connect.js:307) -/
  | getState
  /-- an invocation of the state-props computation (computeStateProps) -/
  | computeState
  /-- an invocation of the dispatch-props computation (computeDispatchProps) -/
  | computeDispatch
  /-- an invocation of the merged-props computation (computeMergedProps) -/
  | computeMerged
  /-- a call to createElement producing a fresh node (connect.js:392-395) -/
  | createElem
  /-- a call to this.setState scheduling a re-render (connect.js:325) -/
  | scheduleRender
  deriving DecidableEq, Repr

/-- A rendered node.  `id` is a freshness token: every createElement call
produces a node with a previously unused id, so reference identity of nodes
is id equality. -/
structure Elem where
  id : Nat
  props : JsObj
  withRef : Bool
  deriving DecidableEq, Repr

/-- A JS function value used as a mapper: its declared parameter count
(JS `Function.length`, read at connect.js:181 and connect.js:214) and its
behaviour.  The second argument is `none` when the source calls the
function with a single argument (ownProps left undefined); the result is
`Except.error e` when the call throws `e`. -/
structure JsFn where
  arity : Nat
  run : Nat → Option JsObj → Except Nat JsObj

/-- A mapper argument passed to connect: either a plain mapper returning a
props object, or a factory whose first invocation returns the real mapper
(connect.js:178, connect.js:211). -/
inductive MapperArg where
  | plain (f : JsFn)
  | factory (arity : Nat) (f : JsFn)

/-- connect.js:33, `defaultMapStateToProps = state => ({})`:
declared parameter count 1, always returns the empty object. -/
def defaultMapStateToProps : JsFn :=
  ⟨1, fun _ _ => Except.ok []⟩

/-- connect.js:34, `defaultMapDispatchToProps = dispatch => ({dispatch})`:
declared parameter count 1, returns the object binding the key "dispatch"
to the store's dispatch function reference. -/
def defaultMapDispatchToProps : JsFn :=
  ⟨1, fun d _ => Except.ok [("dispatch", d)]⟩

/-- The arguments of a connect(...) call (connect.js:62).  `mergeProps` is
`none` when the caller did not supply a merge function, in which case the
default merge is used; a supplied merge function is a custom one, distinct
by reference from `defaultMergeProps` (which the module never exports). -/
structure ConnectConfig where
  mapStateToProps : Option MapperArg
  mapDispatchToProps : Option MapperArg
  mergeProps : Option (JsObj → JsObj → JsObj → JsObj)
  pure : Bool
  withRef : Bool

/-- The external store: the current state snapshot reference and the
reference token of its dispatch function. -/
structure Store where
  snapshot : Nat
  dispatchTok : Nat
  deriving DecidableEq, Repr

/-- connect.js:64, `shouldSubscribe = Boolean(mapStateToProps)`. -/
def shouldSubscribe (c : ConnectConfig) : Bool :=
  c.mapStateToProps.isSome

/-- connect.js:71, `mapState = mapStateToProps || defaultMapStateToProps`. -/
def mapStateArg (c : ConnectConfig) : MapperArg :=
  c.mapStateToProps.getD (MapperArg.plain defaultMapStateToProps)

/-- connect.js:76-83: the finalized mapDispatch argument (a supplied
function is used directly; an omitted one defaults; the action-creator
object form, wrapped by wrapActionCreators into a one-parameter function,
is covered by the plain-function form). -/
def mapDispatchArg (c : ConnectConfig) : MapperArg :=
  c.mapDispatchToProps.getD (MapperArg.plain defaultMapDispatchToProps)

/-- connect.js:88, `finalMergeProps = mergeProps || defaultMergeProps`. -/
def finalMergeProps (c : ConnectConfig) : JsObj → JsObj → JsObj → JsObj :=
  c.mergeProps.getD defaultMergeProps

/-- connect.js:96,
`checkMergedEquals = pure && finalMergeProps !== defaultMergeProps`:
true exactly when pure and a custom merge function was supplied. -/
def checkMergedEquals (c : ConnectConfig) : Bool :=
  c.pure && c.mergeProps.isSome

/-- The mutable fields of a live Connect instance (connect.js:127-399).
`storeState` is `this.state.storeState`; `subscribed` is whether
`this.unsubscribe` holds a function; `finalMapState`/`finalMapDispatch`
are the finalized mappers (none while unconfigured); `nextElemId` is the
supply of fresh node identities for createElement. -/
structure ConnectState where
  storeState : Nat
  props : JsObj
  stateProps : Option JsObj
  dispatchProps : Option JsObj
  mergedProps : Option JsObj
  haveOwnPropsChanged : Bool
  hasStoreStateChanged : Bool
  haveStatePropsBeenPrecalculated : Bool
  statePropsPrecalculationError : Option Nat
  renderedElement : Option Elem
  subscribed : Bool
  finalMapState : Option JsFn
  doStatePropsDependOnOwnProps : Bool
  finalMapDispatch : Option JsFn
  doDispatchPropsDependOnOwnProps : Bool
  nextElemId : Nat

/-- connect.js:176-191, `configureFinalMapState`: the first state-mapper
invocation; a function-valued result becomes the real mapper, and the
own-props dependency flag is the finalized mapper's parameter count being
different from 1 (connect.js:181).  A throw from the plain mapper happens
before any field is assigned. -/
def configureFinalMapState (c : ConnectConfig) (s : ConnectState)
    (snap : Nat) : Except Nat JsObj × ConnectState :=
  match mapStateArg c with
  | MapperArg.plain f =>
    match f.run snap (some s.props) with
    | Except.error e => (Except.error e, s)
    | Except.ok o =>
      (Except.ok o,
        { s with finalMapState := some f,
                 doStatePropsDependOnOwnProps := f.arity != 1 })
  | MapperArg.factory _ g =>
    let s' := { s with finalMapState := some g,
                       doStatePropsDependOnOwnProps := g.arity != 1 }
    (g.run snap (if g.arity != 1 then some s.props else none), s')

/-- connect.js:160-174, `computeStateProps`: configure on first use, then
invoke the finalized mapper, passing ownProps only when the dependency
flag is set. -/
def computeStateProps (c : ConnectConfig) (s : ConnectState)
    (snap : Nat) : Except Nat JsObj × ConnectState :=
  match s.finalMapState with
  | none => configureFinalMapState c s snap
  | some f =>
    (f.run snap
      (if s.doStatePropsDependOnOwnProps then some s.props else none), s)

/-- connect.js:209-224, `configureFinalMapDispatch`: mirror image of
configureFinalMapState for the dispatch mapper. -/
def configureFinalMapDispatch (c : ConnectConfig) (s : ConnectState)
    (store : Store) : Except Nat JsObj × ConnectState :=
  match mapDispatchArg c with
  | MapperArg.plain f =>
    match f.run store.dispatchTok (some s.props) with
    | Except.error e => (Except.error e, s)
    | Except.ok o =>
      (Except.ok o,
        { s with finalMapDispatch := some f,
                 doDispatchPropsDependOnOwnProps := f.arity != 1 })
  | MapperArg.factory _ g =>
    let s' := { s with finalMapDispatch := some g,
                       doDispatchPropsDependOnOwnProps := g.arity != 1 }
    (g.run store.dispatchTok
      (if g.arity != 1 then some s.props else none), s')

/-- connect.js:193-207, `computeDispatchProps`. -/
def computeDispatchProps (c : ConnectConfig) (s : ConnectState)
    (store : Store) : Except Nat JsObj × ConnectState :=
  match s.finalMapDispatch with
  | none => configureFinalMapDispatch c s store
  | some f =>
    (f.run store.dispatchTok
      (if s.doDispatchPropsDependOnOwnProps then some s.props else none), s)

/-- connect.js:226-234, `updateStatePropsIfNeeded`: recompute, and report
unchanged (keeping the cache) when a cached value exists and is
shallow-equal to the fresh one. -/
def updateStatePropsIfNeeded (c : ConnectConfig) (s : ConnectState)
    (snap : Nat) : Except Nat Bool × ConnectState :=
  match computeStateProps c s snap with
  | (Except.error e, s₁) => (Except.error e, s₁)
  | (Except.ok next, s₁) =>
    match s₁.stateProps with
    | some prev =>
      if shallowEqual next prev then (Except.ok false, s₁)
      else (Except.ok true, { s₁ with stateProps := some next })
    | none => (Except.ok true, { s₁ with stateProps := some next })

/-- connect.js:236-244, `updateDispatchPropsIfNeeded`. -/
def updateDispatchPropsIfNeeded (c : ConnectConfig) (s : ConnectState)
    (store : Store) : Except Nat Bool × ConnectState :=
  match computeDispatchProps c s store with
  | (Except.error e, s₁) => (Except.error e, s₁)
  | (Except.ok next, s₁) =>
    match s₁.dispatchProps with
    | some prev =>
      if shallowEqual next prev then (Except.ok false, s₁)
      else (Except.ok true, { s₁ with dispatchProps := some next })
    | none => (Except.ok true, { s₁ with dispatchProps := some next })

/-- connect.js:115-121, `computeMergedProps`: apply the final merge
function (the development-mode shape check only warns). -/
def computeMergedProps (c : ConnectConfig)
    (stateProps dispatchProps parentProps : JsObj) : JsObj :=
  finalMergeProps c stateProps dispatchProps parentProps

/-- connect.js:246-254, `updateMergedPropsIfNeeded`: recompute the merge;
report unchanged only when a cached value exists, `checkMergedEquals`
holds (pure with a custom merge function) and the fresh merge is
shallow-equal to the cache. -/
def updateMergedPropsIfNeeded (c : ConnectConfig) (s : ConnectState) :
    Bool × ConnectState :=
  let next := computeMergedProps c (s.stateProps.getD [])
    (s.dispatchProps.getD []) s.props
  match s.mergedProps with
  | some prev =>
    if checkMergedEquals c && shallowEqual next prev then (false, s)
    else (true, { s with mergedProps := some next })
  | none => (true, { s with mergedProps := some next })

/-- connect.js:289-300, `clearCache`. -/
def clearCache (s : ConnectState) : ConnectState :=
  { s with dispatchProps := none,
           stateProps := none,
           mergedProps := none,
           haveOwnPropsChanged := true,
           hasStoreStateChanged := true,
           haveStatePropsBeenPrecalculated := false,
           statePropsPrecalculationError := none,
           renderedElement := none,
           finalMapDispatch := none,
           finalMapState := none }

/-- connect.js:140-158, the constructor: record the current store snapshot
as this.state.storeState and clear the cache.  The own-props dependency
flags start out falsy (undefined). -/
def initConnectState (store : Store) (props : JsObj) : ConnectState :=
  clearCache
    { storeState := store.snapshot,
      props := props,
      stateProps := none,
      dispatchProps := none,
      mergedProps := none,
      haveOwnPropsChanged := true,
      hasStoreStateChanged := true,
      haveStatePropsBeenPrecalculated := false,
      statePropsPrecalculationError := none,
      renderedElement := none,
      subscribed := false,
      finalMapState := none,
      doStatePropsDependOnOwnProps := false,
      finalMapDispatch := none,
      doDispatchPropsDependOnOwnProps := false,
      nextElemId := 0 }

/-- connect.js:128-130, `shouldComponentUpdate`. -/
def shouldComponentUpdate (c : ConnectConfig) (s : ConnectState) : Bool :=
  !c.pure || s.haveOwnPropsChanged || s.hasStoreStateChanged

/-- connect.js:302-326, `handleChange`, the store change listener.  The
returned Bool is whether this.setState was called (a re-render was
scheduled).  The tryCatch wrapper (connect.js:49-57) around the
opportunistic updateStatePropsIfNeeded call turns a throw into the stored
statePropsPrecalculationError. -/
def handleChange (c : ConnectConfig) (s : ConnectState) (store : Store) :
    ConnectState × Bool × List Ev :=
  if !s.subscribed then (s, false, [])
  else
    let storeState := store.snapshot
    if c.pure && s.storeState == storeState then (s, false, [Ev.getState])
    else if c.pure && !s.doStatePropsDependOnOwnProps then
      match updateStatePropsIfNeeded c s storeState with
      | (Except.ok false, s₁) =>
        (s₁, false, [Ev.getState, Ev.computeState])
      | (Except.ok true, s₁) =>
        ({ s₁ with haveStatePropsBeenPrecalculated := true,
                   hasStoreStateChanged := true,
                   storeState := storeState },
         true, [Ev.getState, Ev.computeState, Ev.scheduleRender])
      | (Except.error e, s₁) =>
        ({ s₁ with statePropsPrecalculationError := some e,
                   haveStatePropsBeenPrecalculated := true,
                   hasStoreStateChanged := true,
                   storeState := storeState },
         true, [Ev.getState, Ev.computeState, Ev.scheduleRender])
    else
      ({ s with hasStoreStateChanged := true, storeState := storeState },
       true, [Ev.getState, Ev.scheduleRender])

/-- connect.js:260-265, `trySubscribe`: subscribe when configured to and
not already subscribed, then invoke the listener once immediately. -/
def trySubscribe (c : ConnectConfig) (s : ConnectState) (store : Store) :
    ConnectState × Bool × List Ev :=
  if shouldSubscribe c && !s.subscribed then
    let s₁ := { s with subscribed := true }
    let (s₂, sched, evs) := handleChange c s₁ store
    (s₂, sched, Ev.subscribeStore :: evs)
  else (s, false, [])

/-- connect.js:267-272, `tryUnsubscribe`. -/
def tryUnsubscribe (s : ConnectState) : ConnectState :=
  if s.subscribed then { s with subscribed := false } else s

/-- connect.js:284-287, `componentWillUnmount`: tryUnsubscribe, then
clearCache. -/
def componentWillUnmount (s : ConnectState) : ConnectState :=
  clearCache (tryUnsubscribe s)

/-- connect.js:278-282, `componentWillReceiveProps`, together with the
rendering engine's installation of the new props into this.props. -/
def componentWillReceiveProps (c : ConnectConfig) (s : ConnectState)
    (nextProps : JsObj) : ConnectState :=
  let s₁ :=
    if !c.pure || !shallowEqual nextProps s.props then
      { s with haveOwnPropsChanged := true }
    else s
  { s₁ with props := nextProps }

/-- connect.js:337-399, `render`.  Returns the updated instance state, the
produced node (or the re-raised precalculation error), and the trace of
recomputations performed. -/
def render (c : ConnectConfig) (s : ConnectState) (store : Store) :
    ConnectState × Except Nat Elem × List Ev :=
  let own := s.haveOwnPropsChanged
  let stChg := s.hasStoreStateChanged
  let pre := s.haveStatePropsBeenPrecalculated
  let preErr := s.statePropsPrecalculationError
  let relem := s.renderedElement
  let s₀ := { s with haveOwnPropsChanged := false,
                     hasStoreStateChanged := false,
                     haveStatePropsBeenPrecalculated := false,
                     statePropsPrecalculationError := none }
  match preErr with
  | some e => (s₀, Except.error e, [])
  | none =>
    let su := if c.pure && relem.isSome then
        stChg || (own && s₀.doStatePropsDependOnOwnProps)
      else true
    let sd := if c.pure && relem.isSome then
        own && s₀.doDispatchPropsDependOnOwnProps
      else true
    match (if pre then ((Except.ok true : Except Nat Bool), s₀, ([] : List Ev))
           else if su then
             match updateStatePropsIfNeeded c s₀ store.snapshot with
             | (r, s₁) => (r, s₁, [Ev.computeState])
           else (Except.ok false, s₀, [])) with
    | (Except.error e, s₁, evs₁) => (s₁, Except.error e, evs₁)
    | (Except.ok hsc, s₁, evs₁) =>
      match (if sd then
               match updateDispatchPropsIfNeeded c s₁ store with
               | (r, s₂) => (r, s₂, evs₁ ++ [Ev.computeDispatch])
             else (Except.ok false, s₁, evs₁)) with
      | (Except.error e, s₂, evs₂) => (s₂, Except.error e, evs₂)
      | (Except.ok hdc, s₂, evs₂) =>
        let mergedStep :=
          if hsc || hdc || own then
            match updateMergedPropsIfNeeded c s₂ with
            | (b, s') => (b, s', evs₂ ++ [Ev.computeMerged])
          else (false, s₂, evs₂)
        match mergedStep with
        | (hmc, s₃, evs₃) =>
          match hmc, relem with
          | false, some el => (s₃, Except.ok el, evs₃)
          | _, _ =>
            let el : Elem :=
              ⟨s₃.nextElemId, s₃.mergedProps.getD [], c.withRef⟩
            ({ s₃ with renderedElement := some el,
                       nextElemId := s₃.nextElemId + 1 },
             Except.ok el, evs₃ ++ [Ev.createElem])

/-- A lifecycle or environment event delivered to a live instance,
carrying the store as observed at that moment. -/
inductive Op where
  | mount (store : Store)
  | unmount
  | notify (store : Store)
  | receiveProps (p : JsObj)
  | doRender (store : Store)

/-- One step of the instance state machine. -/
def stepOp (c : ConnectConfig) (s : ConnectState) :
    Op → ConnectState × List Ev
  | Op.mount store =>
    match trySubscribe c s store with
    | (s', _, evs) => (s', evs)
  | Op.unmount => (componentWillUnmount s, [])
  | Op.notify store =>
    match handleChange c s store with
    | (s', _, evs) => (s', evs)
  | Op.receiveProps p => (componentWillReceiveProps c s p, [])
  | Op.doRender store =>
    match render c s store with
    | (s', _, evs) => (s', evs)

/-- Run a sequence of lifecycle events, accumulating the trace. -/
def runOps (c : ConnectConfig) (s : ConnectState) :
    List Op → ConnectState × List Ev
  | [] => (s, [])
  | op :: ops =>
    match stepOp c s op with
    | (s₁, evs₁) =>
      match runOps c s₁ ops with
      | (s₂, evs₂) => (s₂, evs₁ ++ evs₂)

/-- A sequence of store notifications and own-prop updates that is quiet
relative to the running state: every notification carries the snapshot
reference already recorded and every own-prop update is shallow-equal to
the current own props. -/
def quietOps (c : ConnectConfig) (s : ConnectState) : List Op → Prop
  | [] => True
  | Op.notify store :: ops =>
    store.snapshot = s.storeState ∧
      quietOps c (stepOp c s (Op.notify store)).1 ops
  | Op.receiveProps p :: ops =>
    shallowEqual p s.props = true ∧
      quietOps c (stepOp c s (Op.receiveProps p)).1 ops
  | _ :: _ => False

/-- A pure connect configuration with all-default mappers and the default
merge function. -/
def cfgPureDefaultMerge : ConnectConfig :=
  { mapStateToProps := none, mapDispatchToProps := none,
    mergeProps := none, pure := true, withRef := false }

/-- A pure connect configuration with a custom merge function (supplied by
the caller, hence reference-distinct from the default one) that computes
the same precedence merge as the default. -/
def cfgPureCustomMerge : ConnectConfig :=
  { mapStateToProps := none, mapDispatchToProps := none,
    mergeProps := some (fun spr dpr par => (par.spread spr).spread dpr),
    pure := true, withRef := false }

/-- An instance state whose cached merged props are shallow-equal to the
merge of its cached state props, dispatch props and own props. -/
def stateMergedEqual : ConnectState :=
  { storeState := 0, props := [],
    stateProps := some [], dispatchProps := some [],
    mergedProps := some [],
    haveOwnPropsChanged := false, hasStoreStateChanged := false,
    haveStatePropsBeenPrecalculated := false,
    statePropsPrecalculationError := none,
    renderedElement := none, subscribed := true,
    finalMapState := none, doStatePropsDependOnOwnProps := false,
    finalMapDispatch := none, doDispatchPropsDependOnOwnProps := false,
    nextElemId := 0 }

/-- A zero-parameter state mapper (JS `() => ({})` has length 0). -/
def zeroArityStateMapper : JsFn :=
  ⟨0, fun _ _ => Except.ok []⟩

/-- A two-parameter dispatch mapper. -/
def twoArityDispatchMapper : JsFn :=
  ⟨2, fun d pr => Except.ok (("dispatch", d) :: pr.getD [])⟩

/-- Configuration supplying the zero-parameter state mapper and the
two-parameter dispatch mapper. -/
def cfgArity : ConnectConfig :=
  { mapStateToProps := some (MapperArg.plain zeroArityStateMapper),
    mapDispatchToProps := some (MapperArg.plain twoArityDispatchMapper),
    mergeProps := none, pure := true, withRef := false }

/-- A freshly constructed instance for the arity configuration. -/
def stateArity : ConnectState := initConnectState ⟨5, 0⟩ []

/-- A state mapper that always throws the error token 7. -/
def errStateMapper : JsFn :=
  ⟨1, fun _ _ => Except.error 7⟩

/-- Configuration whose state mapper always throws. -/
def cfgErr : ConnectConfig :=
  { mapStateToProps := some (MapperArg.plain errStateMapper),
    mapDispatchToProps := none, mergeProps := none,
    pure := true, withRef := false }

/-- A mounted, finalized instance for the throwing configuration. -/
def stateErr : ConnectState :=
  { storeState := 0, props := [],
    stateProps := some [], dispatchProps := none, mergedProps := none,
    haveOwnPropsChanged := false, hasStoreStateChanged := false,
    haveStatePropsBeenPrecalculated := false,
    statePropsPrecalculationError := none,
    renderedElement := none, subscribed := true,
    finalMapState := some errStateMapper,
    doStatePropsDependOnOwnProps := false,
    finalMapDispatch := none, doDispatchPropsDependOnOwnProps := false,
    nextElemId := 0 }

/-- A constant state mapper used by the quiet-sequence witness. -/
def quietStateMapper : JsFn :=
  ⟨1, fun _ _ => Except.ok []⟩

/-- Pure configuration for the quiet-sequence witness. -/
def cfgQuiet : ConnectConfig :=
  { mapStateToProps := some (MapperArg.plain quietStateMapper),
    mapDispatchToProps := none, mergeProps := none,
    pure := true, withRef := false }

/-- The cached node of the quiet-sequence witness instance. -/
def elQuiet : Elem :=
  ⟨0, [("a", 1), ("dispatch", 0)], false⟩

/-- A mounted instance that has just rendered: caches filled, dirty flags
clear, a node cached. -/
def stateQuiet : ConnectState :=
  { storeState := 3, props := [("a", 1)],
    stateProps := some [], dispatchProps := some [("dispatch", 0)],
    mergedProps := some [("a", 1), ("dispatch", 0)],
    haveOwnPropsChanged := false, hasStoreStateChanged := false,
    haveStatePropsBeenPrecalculated := false,
    statePropsPrecalculationError := none,
    renderedElement := some elQuiet, subscribed := true,
    finalMapState := some quietStateMapper,
    doStatePropsDependOnOwnProps := false,
    finalMapDispatch := some defaultMapDispatchToProps,
    doDispatchPropsDependOnOwnProps := false,
    nextElemId := 1 }

/-- A quiet sequence: a notification with the unchanged snapshot followed
by an own-prop update shallow-equal to the current props. -/
def opsQuiet : List Op :=
  [Op.notify ⟨3, 0⟩, Op.receiveProps [("a", 1)]]

/-- A two-parameter (own-props-dependent) constant state mapper. -/
def depStateMapper : JsFn :=
  ⟨2, fun _ _ => Except.ok []⟩

/-- Pure configuration with the own-props-dependent state mapper. -/
def cfgDep : ConnectConfig :=
  { mapStateToProps := some (MapperArg.plain depStateMapper),
    mapDispatchToProps := none, mergeProps := none,
    pure := true, withRef := false }

/-- The cached node for the C4 witness instance. -/
def elDep : Elem :=
  ⟨0, [("dispatch", 0)], false⟩

/-- A mounted, rendered instance whose state mapper depends on own props. -/
def stateDep : ConnectState :=
  { storeState := 3, props := [],
    stateProps := some [], dispatchProps := some [("dispatch", 0)],
    mergedProps := some [("dispatch", 0)],
    haveOwnPropsChanged := false, hasStoreStateChanged := false,
    haveStatePropsBeenPrecalculated := false,
    statePropsPrecalculationError := none,
    renderedElement := some elDep, subscribed := true,
    finalMapState := some depStateMapper,
    doStatePropsDependOnOwnProps := true,
    finalMapDispatch := some defaultMapDispatchToProps,
    doDispatchPropsDependOnOwnProps := false,
    nextElemId := 1 }

/-- An impure (pure=false) configuration with a constant state mapper and
the default dispatch mapper and merge. -/
def cfgImpure : ConnectConfig :=
  { mapStateToProps := some (MapperArg.plain quietStateMapper),
    mapDispatchToProps := none, mergeProps := none,
    pure := false, withRef := false }

/-- The store before the dispatch of the C3 scenario. -/
def storeBefore : Store := ⟨10, 0⟩

/-- The store after a dispatch changed the snapshot reference. -/
def storeAfter : Store := ⟨11, 0⟩

/-- The impure instance as constructed. -/
def sImpure0 : ConnectState := initConnectState storeBefore []

/-- The impure instance after mounting (subscribe plus initial listener
invocation). -/
def sImpure1 : ConnectState :=
  (stepOp cfgImpure sImpure0 (Op.mount storeBefore)).1

/-- The impure instance after its first render. -/
def sImpure2 : ConnectState := (render cfgImpure sImpure1 storeBefore).1

/-- The impure instance after a store notification with the changed
snapshot (a re-render is scheduled). -/
def sImpure3 : ConnectState :=
  (handleChange cfgImpure sImpure2 storeAfter).1

/-- The store used by the fresh-instance witness. -/
def freshStore : Store := ⟨7, 0⟩

/-- A freshly constructed instance (all caches null) for the pure default
configuration with the constant state mapper. -/
def stateFresh : ConnectState := initConnectState freshStore []

/-- The state-props step of render (connect.js:365-371), parameterized by
the already-read haveStatePropsBeenPrecalculated flag and the
shouldUpdateStateProps decision. -/
def renderStage1 (c : ConnectConfig) (s₀ : ConnectState) (pre su : Bool)
    (snap : Nat) : Except Nat Bool × ConnectState × List Ev :=
  if pre then ((Except.ok true : Except Nat Bool), s₀, ([] : List Ev))
  else if su then
    match updateStatePropsIfNeeded c s₀ snap with
    | (r, s₁) => (r, s₁, [Ev.computeState])
  else (Except.ok false, s₀, [])

/-- The dispatch-props step of render (connect.js:372-374). -/
def renderStage2 (c : ConnectConfig) (s₁ : ConnectState) (sd : Bool)
    (store : Store) (evs₁ : List Ev) :
    Except Nat Bool × ConnectState × List Ev :=
  if sd then
    match updateDispatchPropsIfNeeded c s₁ store with
    | (r, s₂) => (r, s₂, evs₁ ++ [Ev.computeDispatch])
  else (Except.ok false, s₁, evs₁)

/-- The merged-props step of render (connect.js:376-385). -/
def renderStage3 (c : ConnectConfig) (s₂ : ConnectState) (doMerge : Bool)
    (evs₂ : List Ev) : Bool × ConnectState × List Ev :=
  if doMerge then
    match updateMergedPropsIfNeeded c s₂ with
    | (b, s') => (b, s', evs₂ ++ [Ev.computeMerged])
  else (false, s₂, evs₂)

/-- The body of render after the stored-error check, assembled from the
three stages and the node-production step (connect.js:355-399). -/
def renderCore (c : ConnectConfig) (s₀ : ConnectState) (store : Store)
    (pre su sd own : Bool) (relem : Option Elem) :
    ConnectState × Except Nat Elem × List Ev :=
  match renderStage1 c s₀ pre su store.snapshot with
  | (Except.error e, s₁, evs₁) => (s₁, Except.error e, evs₁)
  | (Except.ok hsc, s₁, evs₁) =>
    match renderStage2 c s₁ sd store evs₁ with
    | (Except.error e, s₂, evs₂) => (s₂, Except.error e, evs₂)
    | (Except.ok hdc, s₂, evs₂) =>
      match renderStage3 c s₂ (hsc || hdc || own) evs₂ with
      | (hmc, s₃, evs₃) =>
        match hmc, relem with
        | false, some el => (s₃, Except.ok el, evs₃)
        | _, _ =>
          let el : Elem :=
            ⟨s₃.nextElemId, s₃.mergedProps.getD [], c.withRef⟩
          ({ s₃ with renderedElement := some el,
                     nextElemId := s₃.nextElemId + 1 },
           Except.ok el, evs₃ ++ [Ev.createElem])

/-- render, written as the composition of the named stages; definitionally
equal to `render` (see render_eq_alt). -/
def renderAlt (c : ConnectConfig) (s : ConnectState) (store : Store) :
    ConnectState × Except Nat Elem × List Ev :=
  let own := s.haveOwnPropsChanged
  let stChg := s.hasStoreStateChanged
  let pre := s.haveStatePropsBeenPrecalculated
  let preErr := s.statePropsPrecalculationError
  let relem := s.renderedElement
  let s₀ := { s with haveOwnPropsChanged := false,
                     hasStoreStateChanged := false,
                     haveStatePropsBeenPrecalculated := false,
                     statePropsPrecalculationError := none }
  match preErr with
  | some e => (s₀, Except.error e, [])
  | none =>
    let su := if c.pure && relem.isSome then
        stChg || (own && s₀.doStatePropsDependOnOwnProps)
      else true
    let sd := if c.pure && relem.isSome then
        own && s₀.doDispatchPropsDependOnOwnProps
      else true
    renderCore c s₀ store pre su sd own relem

/-- A configuration with no state mapper at all. -/
def cfgNoMapper : ConnectConfig :=
  { mapStateToProps := none, mapDispatchToProps := none,
    mergeProps := none, pure := true, withRef := false }

/-- A freshly constructed instance for the mapperless configuration. -/
def stateNoMapper : ConnectState := initConnectState ⟨0, 0⟩ []

/-- A lifecycle for the mapperless witness: mount, two store notifications
with fresh snapshots, a render, and unmount. -/
def opsNoMapper : List Op :=
  [Op.mount ⟨0, 0⟩, Op.notify ⟨1, 0⟩, Op.notify ⟨2, 0⟩,
   Op.doRender ⟨2, 0⟩, Op.unmount]

theorem JsObj.get_append (a b : JsObj) (key : String) :
    (a ++ b).get key = if (a.get key).isSome then a.get key else b.get key := by
  induction a with
  | nil => simp [JsObj.get]
  | cons kv rest ih =>
    obtain ⟨k, v⟩ := kv
    by_cases h : k = key <;> simp [JsObj.get, h, ih]

theorem JsObj.get_map_spreadFn (a b : JsObj) (key : String) :
    JsObj.get (a.map (fun kv => (kv.1, (b.get kv.1).getD kv.2))) key
      = (a.get key).map (fun v => (b.get key).getD v) := by
  induction a with
  | nil => simp [JsObj.get]
  | cons kv rest ih =>
    obtain ⟨k, v⟩ := kv
    by_cases h : k = key
    · subst h; simp [JsObj.get]
    · simp [JsObj.get, h, ih]

theorem JsObj.get_filter_of_key_kept (l : JsObj) (p : String × Nat → Bool)
    (key : String) (hp : ∀ v, p (key, v) = true) :
    JsObj.get (l.filter p) key = l.get key := by
  induction l with
  | nil => simp [JsObj.get]
  | cons kv rest ih =>
    obtain ⟨k, v⟩ := kv
    by_cases h : k = key
    · subst h
      simp [List.filter_cons, hp v, JsObj.get, ih]
    · cases hpk : p (k, v) <;> simp [List.filter_cons, hpk, JsObj.get, h, ih]

theorem JsObj.get_spread (a b : JsObj) (key : String) :
    (a.spread b).get key
      = if (b.get key).isSome then b.get key else a.get key := by
  rw [JsObj.spread, JsObj.get_append, JsObj.get_map_spreadFn]
  cases ha : a.get key with
  | some v =>
    cases hb : b.get key <;> simp
  | none =>
    have hkept : ∀ v : Nat,
        (fun kv : String × Nat => ! a.hasKey kv.1) (key, v) = true := by
      intro v
      simp [JsObj.hasKey, ha]
    rw [JsObj.get_filter_of_key_kept b _ key hkept]
    cases hb : b.get key <;> simp

/-- C5: for every stateProps, dispatchProps and ownProps mapping, the
default merge function yields a mapping whose value at each key is the
dispatch-props value if the key is present in dispatchProps, else the
state-props value if present in stateProps, else the own-props value. -/
theorem C5_default_merge_precedence (sp dp own : JsObj) (k : String) :
    (defaultMergeProps sp dp own).get k =
      if dp.hasKey k then dp.get k
      else if sp.hasKey k then sp.get k
      else own.get k := by
  rw [defaultMergeProps, JsObj.get_spread, JsObj.get_spread]
  simp [JsObj.hasKey]

/-- C2 counterexample: with pure=true and the DEFAULT merge function,
updateMergedPropsIfNeeded reports changed (true) even though the newly
merged props are shallow-equal to the cached ones — the claimed
short-circuit does not happen for the default merge; and with a CUSTOM
merge function producing a shallow-equal result it reports unchanged
(false) — a custom merge is not always treated as changed.  The source's
checkMergedEquals (connect.js:96) is `pure && finalMergeProps !==
defaultMergeProps`, the opposite of the claim. -/
theorem C2_counterexample :
    (updateMergedPropsIfNeeded cfgPureDefaultMerge stateMergedEqual).1 = true ∧
    (updateMergedPropsIfNeeded cfgPureCustomMerge stateMergedEqual).1 = false := by
  constructor <;> rfl

/-- C2 (amended): when pure is true, updateMergedPropsIfNeeded applies the
shallow-equality short-circuit (skipping the merged-props cache update and
reporting unchanged) exactly when the merge function is a CUSTOM
(non-default) one and the cached merged props are shallow-equal to the
freshly merged ones; with the default merge function merged props are
always treated as changed. -/
theorem C2_merge_short_circuit_custom_only (c : ConnectConfig)
    (s : ConnectState) :
    (updateMergedPropsIfNeeded c s).1 = false ↔
      (c.pure = true ∧ c.mergeProps.isSome = true ∧
        ∃ prev, s.mergedProps = some prev ∧
          shallowEqual
            (computeMergedProps c (s.stateProps.getD [])
              (s.dispatchProps.getD []) s.props) prev = true) := by
  cases hm : s.mergedProps with
  | none => simp [updateMergedPropsIfNeeded, hm]
  | some prev =>
    simp only [updateMergedPropsIfNeeded, hm, checkMergedEquals]
    by_cases hp : c.pure = true
    · by_cases hms : c.mergeProps.isSome = true
      · by_cases hsh : shallowEqual
            (computeMergedProps c (s.stateProps.getD [])
              (s.dispatchProps.getD []) s.props) prev = true
        · simp [hp, hms, hsh]
        · simp [hp, hms, hsh]
      · simp [hp, hms]
    · simp [hp]

/-- C6: unsubscribing a connected instance twice (unmount followed by a
second teardown attempt) is a no-op the second time, and after
unsubscription any store notification delivered to the instance's listener
returns immediately: the state is untouched, no store read happens (empty
trace, in particular no getState event) and no re-render is scheduled. -/
theorem C6_unsubscribe_idempotent_noop (c : ConnectConfig)
    (s : ConnectState) (store : Store) :
    tryUnsubscribe (componentWillUnmount s) = componentWillUnmount s ∧
    handleChange c (componentWillUnmount s) store
      = (componentWillUnmount s, false, []) := by
  have hsub : (componentWillUnmount s).subscribed = false := by
    unfold componentWillUnmount clearCache tryUnsubscribe
    by_cases h : s.subscribed <;> simp [h]
  constructor
  · unfold tryUnsubscribe
    simp [hsub]
  · unfold handleChange
    simp [hsub]

/-- C9: when the state- and dispatch-mappers are finalized (first
computation after construction or cache clear), the cached own-props
dependency flags equal the finalized function's declared parameter count
being different from exactly 1 — so a zero-parameter mapper is treated as
depending on own props. -/
theorem C9_arity_flag (c : ConnectConfig) (s : ConnectState) (snap : Nat)
    (store : Store) (f g : JsFn)
    (hs0 : s.finalMapState = none)
    (hd0 : s.finalMapDispatch = none)
    (hf : (computeStateProps c s snap).2.finalMapState = some f)
    (hg : (computeDispatchProps c s store).2.finalMapDispatch = some g) :
    (computeStateProps c s snap).2.doStatePropsDependOnOwnProps
        = (f.arity != 1) ∧
    (computeDispatchProps c s store).2.doDispatchPropsDependOnOwnProps
        = (g.arity != 1) := by
  constructor
  · rw [computeStateProps, hs0] at hf ⊢
    rw [configureFinalMapState] at hf ⊢
    cases hma : mapStateArg c with
    | plain fp =>
      simp only [hma] at hf
      cases hr : fp.run snap (some s.props) with
      | error e =>
        simp [hr, hs0] at hf
      | ok o =>
        simp [hr] at hf ⊢
        rw [hf]
    | factory n gp =>
      simp only [hma] at hf
      simp at hf ⊢
      rw [hf]
  · rw [computeDispatchProps, hd0] at hg ⊢
    rw [configureFinalMapDispatch] at hg ⊢
    cases hma : mapDispatchArg c with
    | plain fp =>
      simp only [hma] at hg
      cases hr : fp.run store.dispatchTok (some s.props) with
      | error e =>
        simp [hr, hd0] at hg
      | ok o =>
        simp [hr] at hg ⊢
        rw [hg]
    | factory n gp =>
      simp only [hma] at hg
      simp at hg ⊢
      rw [hg]

/-- Witness for C9: on the freshly constructed instance, finalizing the
zero-parameter state mapper and the two-parameter dispatch mapper sets
both dependency flags to true. -/
theorem C9_arity_flag_witness :
    (computeStateProps cfgArity stateArity 5).2.doStatePropsDependOnOwnProps
        = true ∧
    (computeDispatchProps cfgArity stateArity
        ⟨5, 0⟩).2.doDispatchPropsDependOnOwnProps = true :=
  C9_arity_flag cfgArity stateArity 5 ⟨5, 0⟩
    zeroArityStateMapper twoArityDispatchMapper rfl rfl rfl rfl

/-- C8: an error thrown synchronously by the opportunistic state-prop
recomputation inside the store-notification callback is caught (the
listener returns normally, with the error stored on the instance and a
re-render scheduled), re-thrown at the start of the next render pass, and
the stored error slot is cleared by that render so the same stored error
is raised at most once. -/
theorem C8_precalc_error_rethrown_once (c : ConnectConfig)
    (s : ConnectState) (store store' : Store) (f : JsFn) (e : Nat)
    (hp : c.pure = true)
    (hsub : s.subscribed = true)
    (hchg : store.snapshot ≠ s.storeState)
    (hdep : s.doStatePropsDependOnOwnProps = false)
    (hfm : s.finalMapState = some f)
    (hrun : f.run store.snapshot none = Except.error e) :
    (handleChange c s store).1.statePropsPrecalculationError = some e ∧
    (handleChange c s store).2.1 = true ∧
    (render c (handleChange c s store).1 store').2.1 = Except.error e ∧
    (render c (handleChange c s store).1 store').1.statePropsPrecalculationError
      = none := by
  have hbeq : (s.storeState == store.snapshot) = false := by
    simp only [beq_eq_false_iff_ne, ne_eq]
    exact fun h => hchg h.symm
  have hhc : handleChange c s store =
      ({ s with statePropsPrecalculationError := some e,
                haveStatePropsBeenPrecalculated := true,
                hasStoreStateChanged := true,
                storeState := store.snapshot },
       true, [Ev.getState, Ev.computeState, Ev.scheduleRender]) := by
    rw [handleChange]
    simp [hsub, hp, hbeq, hdep, updateStatePropsIfNeeded,
      computeStateProps, hfm, hrun]
  rw [hhc]
  refine ⟨rfl, rfl, ?_, ?_⟩
  · rw [render]
  · rw [render]

/-- Witness for C8: a store notification with a throwing state mapper
stores error 7 and schedules a re-render, and the next render re-raises
error 7 while clearing the stored slot. -/
theorem C8_precalc_error_rethrown_once_witness :
    (handleChange cfgErr stateErr ⟨1, 0⟩).1.statePropsPrecalculationError
        = some 7 ∧
    (handleChange cfgErr stateErr ⟨1, 0⟩).2.1 = true ∧
    (render cfgErr (handleChange cfgErr stateErr ⟨1, 0⟩).1 ⟨1, 0⟩).2.1
        = Except.error 7 ∧
    (render cfgErr (handleChange cfgErr stateErr ⟨1, 0⟩).1
        ⟨1, 0⟩).1.statePropsPrecalculationError = none :=
  C8_precalc_error_rethrown_once cfgErr stateErr ⟨1, 0⟩ ⟨1, 0⟩
    errStateMapper 7 rfl rfl (by decide) rfl rfl rfl

theorem stepOp_notify_quiet_fst (c : ConnectConfig) (s : ConnectState)
    (store : Store) (hp : c.pure = true)
    (hq : store.snapshot = s.storeState) :
    (stepOp c s (Op.notify store)).1 = s := by
  simp only [stepOp]
  rw [handleChange]
  cases hsub : s.subscribed
  · simp [hsub]
  · simp [hsub, hp, hq]

theorem stepOp_receiveProps_quiet_fst (c : ConnectConfig)
    (s : ConnectState) (p : JsObj) (hp : c.pure = true)
    (hq : shallowEqual p s.props = true) :
    (stepOp c s (Op.receiveProps p)).1 = { s with props := p } := by
  simp [stepOp, componentWillReceiveProps, hp, hq]

theorem runOps_cons_fst (c : ConnectConfig) (s : ConnectState) (op : Op)
    (ops : List Op) :
    (runOps c s (op :: ops)).1 = (runOps c (stepOp c s op).1 ops).1 := by
  rw [runOps]

theorem runOps_quiet_fst (c : ConnectConfig) (s : ConnectState)
    (ops : List Op) (hp : c.pure = true) (hq : quietOps c s ops) :
    ∃ p, (runOps c s ops).1 = { s with props := p } := by
  induction ops generalizing s with
  | nil => exact ⟨s.props, rfl⟩
  | cons op ops ih =>
    cases op with
    | mount store => exact absurd hq (by simp [quietOps])
    | unmount => exact absurd hq (by simp [quietOps])
    | doRender store => exact absurd hq (by simp [quietOps])
    | notify store =>
      obtain ⟨hsnap, hrest⟩ := hq
      rw [stepOp_notify_quiet_fst c s store hp hsnap] at hrest
      obtain ⟨p, hfin⟩ := ih s hrest
      refine ⟨p, ?_⟩
      rw [runOps_cons_fst, stepOp_notify_quiet_fst c s store hp hsnap, hfin]
    | receiveProps q =>
      obtain ⟨hsh, hrest⟩ := hq
      rw [stepOp_receiveProps_quiet_fst c s q hp hsh] at hrest
      obtain ⟨p, hfin⟩ := ih { s with props := q } hrest
      refine ⟨p, ?_⟩
      rw [runOps_cons_fst, stepOp_receiveProps_quiet_fst c s q hp hsh, hfin]

theorem render_calm (c : ConnectConfig) (s : ConnectState) (store : Store)
    (el : Elem) (hp : c.pure = true)
    (hre : s.renderedElement = some el)
    (hown : s.haveOwnPropsChanged = false)
    (hstc : s.hasStoreStateChanged = false)
    (hpre : s.haveStatePropsBeenPrecalculated = false)
    (herr : s.statePropsPrecalculationError = none) :
    render c s store =
      ({ s with haveOwnPropsChanged := false,
                hasStoreStateChanged := false,
                haveStatePropsBeenPrecalculated := false,
                statePropsPrecalculationError := none },
       Except.ok el, []) := by
  rw [render]
  simp [hp, hre, hown, hstc, hpre, herr]

/-- C1: with pure=true, for every quiet sequence of store notifications
(same snapshot reference) and own-prop updates (shallow-equal props)
delivered to a mounted instance after a render (all dirty flags clear, a
cached node present), the next render returns exactly the cached node:
the produced node reference is the previous render's node, nothing is
recomputed (empty trace) and the cache still holds that node. -/
theorem C1_pure_quiet_sequence_returns_cached_node (c : ConnectConfig)
    (s : ConnectState) (store : Store) (el : Elem) (ops : List Op)
    (hp : c.pure = true)
    (hre : s.renderedElement = some el)
    (hown : s.haveOwnPropsChanged = false)
    (hstc : s.hasStoreStateChanged = false)
    (hpre : s.haveStatePropsBeenPrecalculated = false)
    (herr : s.statePropsPrecalculationError = none)
    (hq : quietOps c s ops) :
    (render c (runOps c s ops).1 store).2.1 = Except.ok el ∧
    (render c (runOps c s ops).1 store).1.renderedElement = some el ∧
    (render c (runOps c s ops).1 store).2.2 = [] := by
  obtain ⟨p, hfin⟩ := runOps_quiet_fst c s ops hp hq
  rw [hfin]
  rw [render_calm c { s with props := p } store el hp hre hown hstc hpre herr]
  exact ⟨rfl, hre, rfl⟩

/-- Witness for C1: on the concrete quiet instance, after the quiet
notification and the shallow-equal prop update, render returns exactly the
cached node with an empty trace. -/
theorem C1_pure_quiet_sequence_returns_cached_node_witness :
    (render cfgQuiet (runOps cfgQuiet stateQuiet opsQuiet).1 ⟨3, 0⟩).2.1
        = Except.ok elQuiet ∧
    (render cfgQuiet (runOps cfgQuiet stateQuiet opsQuiet).1
        ⟨3, 0⟩).1.renderedElement = some elQuiet ∧
    (render cfgQuiet (runOps cfgQuiet stateQuiet opsQuiet).1 ⟨3, 0⟩).2.2
        = [] :=
  C1_pure_quiet_sequence_returns_cached_node cfgQuiet stateQuiet ⟨3, 0⟩
    elQuiet opsQuiet rfl rfl rfl rfl rfl rfl
    ⟨rfl, by decide, trivial⟩

/-- C4: with pure=true, when a store notification carries a changed
snapshot reference but the configured state-mapper's output for the new
snapshot is shallow-equal to the cached state props, merged props are not
recomputed and the previously rendered node is reused: either the listener
bails out entirely (no re-render scheduled, state untouched), or the
scheduled render returns the cached node without recomputing or replacing
the merged props. -/
theorem C4_shallow_equal_state_props_skip_merge (c : ConnectConfig)
    (s : ConnectState) (store : Store) (el : Elem) (f : JsFn)
    (sp nsp : JsObj)
    (hp : c.pure = true)
    (hsub : s.subscribed = true)
    (hchg : store.snapshot ≠ s.storeState)
    (hre : s.renderedElement = some el)
    (hsp : s.stateProps = some sp)
    (hfm : s.finalMapState = some f)
    (hrun : f.run store.snapshot
      (if s.doStatePropsDependOnOwnProps then some s.props else none)
        = Except.ok nsp)
    (hseq : shallowEqual nsp sp = true)
    (hown : s.haveOwnPropsChanged = false)
    (hstc : s.hasStoreStateChanged = false)
    (hpre : s.haveStatePropsBeenPrecalculated = false)
    (herr : s.statePropsPrecalculationError = none) :
    (handleChange c s store).1.mergedProps = s.mergedProps ∧
    ((handleChange c s store).2.1 = false → (handleChange c s store).1 = s) ∧
    ((handleChange c s store).2.1 = true →
      (render c (handleChange c s store).1 store).2.1 = Except.ok el ∧
      (render c (handleChange c s store).1 store).1.renderedElement
          = some el ∧
      (render c (handleChange c s store).1 store).1.mergedProps
          = s.mergedProps ∧
      Ev.computeMerged ∉ (render c (handleChange c s store).1 store).2.2 ∧
      Ev.createElem ∉ (render c (handleChange c s store).1 store).2.2) := by
  have hbeq : (s.storeState == store.snapshot) = false := by
    simp only [beq_eq_false_iff_ne, ne_eq]
    exact fun h => hchg h.symm
  cases hdep : s.doStatePropsDependOnOwnProps with
  | false =>
    rw [hdep] at hrun
    simp only [Bool.false_eq_true, if_false] at hrun
    have hhc : handleChange c s store
        = (s, false, [Ev.getState, Ev.computeState]) := by
      rw [handleChange]
      simp [hsub, hp, hbeq, hdep, updateStatePropsIfNeeded,
        computeStateProps, hfm, hrun, hsp, hseq]
    rw [hhc]
    exact ⟨rfl, fun _ => rfl, fun hcontra => absurd hcontra (by simp)⟩
  | true =>
    rw [hdep] at hrun
    simp only [if_true] at hrun
    have hhc : handleChange c s store
        = ({ s with hasStoreStateChanged := true,
                    storeState := store.snapshot },
           true, [Ev.getState, Ev.scheduleRender]) := by
      rw [handleChange]
      simp [hsub, hp, hbeq, hdep]
    rw [hhc]
    refine ⟨rfl, by simp, fun _ => ?_⟩
    rw [render]
    simp [hre, hown, hpre, herr, hp, hdep, updateStatePropsIfNeeded,
      computeStateProps, hfm, hrun, hsp, hseq]

/-- Witness for C4: a notification with a fresh snapshot whose mapper
output is shallow-equal to the cache leads to a render that returns the
cached node without touching merged props. -/
theorem C4_shallow_equal_state_props_skip_merge_witness :
    (handleChange cfgDep stateDep ⟨4, 0⟩).1.mergedProps
        = stateDep.mergedProps ∧
    ((handleChange cfgDep stateDep ⟨4, 0⟩).2.1 = false →
      (handleChange cfgDep stateDep ⟨4, 0⟩).1 = stateDep) ∧
    ((handleChange cfgDep stateDep ⟨4, 0⟩).2.1 = true →
      (render cfgDep (handleChange cfgDep stateDep ⟨4, 0⟩).1 ⟨4, 0⟩).2.1
          = Except.ok elDep ∧
      (render cfgDep (handleChange cfgDep stateDep ⟨4, 0⟩).1
          ⟨4, 0⟩).1.renderedElement = some elDep ∧
      (render cfgDep (handleChange cfgDep stateDep ⟨4, 0⟩).1
          ⟨4, 0⟩).1.mergedProps = stateDep.mergedProps ∧
      Ev.computeMerged ∉
        (render cfgDep (handleChange cfgDep stateDep ⟨4, 0⟩).1 ⟨4, 0⟩).2.2 ∧
      Ev.createElem ∉
        (render cfgDep (handleChange cfgDep stateDep ⟨4, 0⟩).1 ⟨4, 0⟩).2.2) :=
  C4_shallow_equal_state_props_skip_merge cfgDep stateDep ⟨4, 0⟩ elDep
    depStateMapper [] [] rfl rfl (by decide) rfl rfl rfl rfl rfl
    rfl rfl rfl rfl

/-- C3 counterexample: with pure=false, the store-notification-triggered
re-render of this reachable instance returns the PREVIOUSLY CACHED node
(same reference, no createElement call, element-id supply untouched),
because the recomputed state and dispatch props are shallow-equal to the
caches and own props did not change — contradicting the claim that every
render of an impure instance produces a new node. -/
theorem C3_counterexample :
    sImpure3.renderedElement = some ⟨0, [("dispatch", 0)], false⟩ ∧
    (render cfgImpure sImpure3 storeAfter).2.1
        = Except.ok ⟨0, [("dispatch", 0)], false⟩ ∧
    (render cfgImpure sImpure3 storeAfter).1.nextElemId
        = sImpure3.nextElemId ∧
    Ev.createElem ∉ (render cfgImpure sImpure3 storeAfter).2.2 :=
  ⟨rfl, rfl, rfl, by decide⟩

/-- C3 (amended): when pure is false, every render recomputes state props
and dispatch props (the memoization gates are bypassed: both mappers are
invoked); however, if a render occurs without an own-prop change and the
recomputed state and dispatch props are shallow-equal to the cached ones,
merged props are NOT recomputed and the previously cached node reference
is returned instead of a new node. -/
theorem C3_impure_recompute_but_cached_node (c : ConnectConfig)
    (s : ConnectState) (store : Store) (el : Elem) (f g : JsFn)
    (sp dp nsp ndp : JsObj)
    (hp : c.pure = false)
    (hpre : s.haveStatePropsBeenPrecalculated = false)
    (herr : s.statePropsPrecalculationError = none)
    (hre : s.renderedElement = some el)
    (hown : s.haveOwnPropsChanged = false)
    (hsp : s.stateProps = some sp)
    (hdp : s.dispatchProps = some dp)
    (hfm : s.finalMapState = some f)
    (hfd : s.finalMapDispatch = some g)
    (hruns : f.run store.snapshot
      (if s.doStatePropsDependOnOwnProps then some s.props else none)
        = Except.ok nsp)
    (hrund : g.run store.dispatchTok
      (if s.doDispatchPropsDependOnOwnProps then some s.props else none)
        = Except.ok ndp)
    (hseqs : shallowEqual nsp sp = true)
    (hseqd : shallowEqual ndp dp = true) :
    (render c s store).2.2 = [Ev.computeState, Ev.computeDispatch] ∧
    (render c s store).2.1 = Except.ok el ∧
    (render c s store).1.renderedElement = some el ∧
    (render c s store).1.mergedProps = s.mergedProps ∧
    (render c s store).1.nextElemId = s.nextElemId := by
  rw [render]
  simp [hp, hpre, herr, hre, hown,
    updateStatePropsIfNeeded, computeStateProps, hfm, hruns, hsp, hseqs,
    updateDispatchPropsIfNeeded, computeDispatchProps, hfd, hrund, hdp,
    hseqd]

/-- Witness for C3 (amended): the reachable impure instance of the
counterexample chain satisfies the amended characterization. -/
theorem C3_impure_recompute_but_cached_node_witness :
    (render cfgImpure sImpure3 storeAfter).2.2
        = [Ev.computeState, Ev.computeDispatch] ∧
    (render cfgImpure sImpure3 storeAfter).2.1
        = Except.ok ⟨0, [("dispatch", 0)], false⟩ ∧
    (render cfgImpure sImpure3 storeAfter).1.renderedElement
        = some ⟨0, [("dispatch", 0)], false⟩ ∧
    (render cfgImpure sImpure3 storeAfter).1.mergedProps
        = sImpure3.mergedProps ∧
    (render cfgImpure sImpure3 storeAfter).1.nextElemId
        = sImpure3.nextElemId :=
  C3_impure_recompute_but_cached_node cfgImpure sImpure3 storeAfter
    ⟨0, [("dispatch", 0)], false⟩ quietStateMapper defaultMapDispatchToProps
    [] [("dispatch", 0)] [] [("dispatch", 0)]
    rfl rfl rfl rfl rfl rfl rfl rfl rfl rfl rfl rfl rfl

theorem computeStateProps_preserves (c : ConnectConfig) (s : ConnectState)
    (snap : Nat) :
    (computeStateProps c s snap).2.props = s.props ∧
    (computeStateProps c s snap).2.stateProps = s.stateProps ∧
    (computeStateProps c s snap).2.dispatchProps = s.dispatchProps ∧
    (computeStateProps c s snap).2.mergedProps = s.mergedProps ∧
    (computeStateProps c s snap).2.finalMapDispatch = s.finalMapDispatch ∧
    (computeStateProps c s snap).2.doDispatchPropsDependOnOwnProps
        = s.doDispatchPropsDependOnOwnProps ∧
    (computeStateProps c s snap).2.renderedElement = s.renderedElement ∧
    (computeStateProps c s snap).2.subscribed = s.subscribed ∧
    (computeStateProps c s snap).2.nextElemId = s.nextElemId ∧
    (computeStateProps c s snap).2.storeState = s.storeState ∧
    (computeStateProps c s snap).2.haveOwnPropsChanged
        = s.haveOwnPropsChanged ∧
    (computeStateProps c s snap).2.hasStoreStateChanged
        = s.hasStoreStateChanged ∧
    (computeStateProps c s snap).2.haveStatePropsBeenPrecalculated
        = s.haveStatePropsBeenPrecalculated ∧
    (computeStateProps c s snap).2.statePropsPrecalculationError
        = s.statePropsPrecalculationError := by
  rw [computeStateProps]
  cases hfs : s.finalMapState with
  | none =>
    rw [configureFinalMapState]
    cases mapStateArg c with
    | plain f => cases hr : f.run snap (some s.props) <;> simp [hr]
    | factory n g => simp
  | some f => simp

theorem computeDispatchProps_preserves (c : ConnectConfig)
    (s : ConnectState) (store : Store) :
    (computeDispatchProps c s store).2.props = s.props ∧
    (computeDispatchProps c s store).2.stateProps = s.stateProps ∧
    (computeDispatchProps c s store).2.dispatchProps = s.dispatchProps ∧
    (computeDispatchProps c s store).2.mergedProps = s.mergedProps ∧
    (computeDispatchProps c s store).2.finalMapState = s.finalMapState ∧
    (computeDispatchProps c s store).2.doStatePropsDependOnOwnProps
        = s.doStatePropsDependOnOwnProps ∧
    (computeDispatchProps c s store).2.renderedElement = s.renderedElement ∧
    (computeDispatchProps c s store).2.subscribed = s.subscribed ∧
    (computeDispatchProps c s store).2.nextElemId = s.nextElemId ∧
    (computeDispatchProps c s store).2.storeState = s.storeState ∧
    (computeDispatchProps c s store).2.haveOwnPropsChanged
        = s.haveOwnPropsChanged ∧
    (computeDispatchProps c s store).2.hasStoreStateChanged
        = s.hasStoreStateChanged ∧
    (computeDispatchProps c s store).2.haveStatePropsBeenPrecalculated
        = s.haveStatePropsBeenPrecalculated ∧
    (computeDispatchProps c s store).2.statePropsPrecalculationError
        = s.statePropsPrecalculationError := by
  rw [computeDispatchProps]
  cases hfd : s.finalMapDispatch with
  | none =>
    rw [configureFinalMapDispatch]
    cases mapDispatchArg c with
    | plain f => cases hr : f.run store.dispatchTok (some s.props) <;> simp [hr]
    | factory n g => simp
  | some f => simp

theorem computeStateProps_fst_congr (c : ConnectConfig)
    (s t : ConnectState) (snap : Nat)
    (h1 : t.finalMapState = s.finalMapState)
    (h2 : t.doStatePropsDependOnOwnProps = s.doStatePropsDependOnOwnProps)
    (h3 : t.props = s.props) :
    (computeStateProps c t snap).1 = (computeStateProps c s snap).1 := by
  rw [computeStateProps, computeStateProps, h1, h2, h3]
  cases hfs : s.finalMapState with
  | none =>
    rw [configureFinalMapState, configureFinalMapState, h3]
    cases mapStateArg c with
    | plain f => cases hr : f.run snap (some s.props) <;> simp [hr]
    | factory n g => simp [h3]
  | some f => simp

theorem computeDispatchProps_fst_congr (c : ConnectConfig)
    (s t : ConnectState) (store : Store)
    (h1 : t.finalMapDispatch = s.finalMapDispatch)
    (h2 : t.doDispatchPropsDependOnOwnProps
        = s.doDispatchPropsDependOnOwnProps)
    (h3 : t.props = s.props) :
    (computeDispatchProps c t store).1
      = (computeDispatchProps c s store).1 := by
  rw [computeDispatchProps, computeDispatchProps, h1, h2, h3]
  cases hfd : s.finalMapDispatch with
  | none =>
    rw [configureFinalMapDispatch, configureFinalMapDispatch, h3]
    cases mapDispatchArg c with
    | plain f => cases hr : f.run store.dispatchTok (some s.props) <;> simp [hr]
    | factory n g => simp [h3]
  | some f => simp

theorem updateStatePropsIfNeeded_fresh (c : ConnectConfig)
    (s : ConnectState) (snap : Nat) (nsp : JsObj)
    (h0 : s.stateProps = none)
    (hcs : (computeStateProps c s snap).1 = Except.ok nsp) :
    updateStatePropsIfNeeded c s snap
      = (Except.ok true,
         { (computeStateProps c s snap).2 with stateProps := some nsp }) := by
  have hpres := (computeStateProps_preserves c s snap).2.1
  rw [updateStatePropsIfNeeded]
  cases hpair : computeStateProps c s snap with
  | mk r s₁ =>
    rw [hpair] at hcs hpres
    have hr : r = Except.ok nsp := hcs
    subst hr
    have h0' : s₁.stateProps = none := hpres.trans h0
    simp [h0']

theorem updateDispatchPropsIfNeeded_fresh (c : ConnectConfig)
    (s : ConnectState) (store : Store) (ndp : JsObj)
    (h0 : s.dispatchProps = none)
    (hcd : (computeDispatchProps c s store).1 = Except.ok ndp) :
    updateDispatchPropsIfNeeded c s store
      = (Except.ok true,
         { (computeDispatchProps c s store).2 with
             dispatchProps := some ndp }) := by
  have hpres := (computeDispatchProps_preserves c s store).2.2.1
  rw [updateDispatchPropsIfNeeded]
  cases hpair : computeDispatchProps c s store with
  | mk r s₁ =>
    rw [hpair] at hcd hpres
    have hr : r = Except.ok ndp := hcd
    subst hr
    have h0' : s₁.dispatchProps = none := hpres.trans h0
    simp [h0']

theorem updateMergedPropsIfNeeded_fresh (c : ConnectConfig)
    (s : ConnectState) (h0 : s.mergedProps = none) :
    updateMergedPropsIfNeeded c s
      = (true,
         { s with mergedProps := some (computeMergedProps c
             (s.stateProps.getD []) (s.dispatchProps.getD []) s.props) }) := by
  rw [updateMergedPropsIfNeeded]
  simp [h0]

/-- C10: starting from a state whose four caches (stateProps,
dispatchProps, mergedProps, renderedElement) are all null — as left by the
constructor or clearCache — the next render recomputes all three prop
stages (each update-if-needed call reports changed), populates all three
caches, and creates a fresh rendered element (with the next unused node
identity) rather than returning any cached node. -/
theorem C10_cleared_cache_full_recompute (c : ConnectConfig)
    (s : ConnectState) (store : Store) (nsp ndp : JsObj)
    (hsp : s.stateProps = none) (hdp : s.dispatchProps = none)
    (hmp : s.mergedProps = none) (hre : s.renderedElement = none)
    (hpre : s.haveStatePropsBeenPrecalculated = false)
    (herr : s.statePropsPrecalculationError = none)
    (hcs : (computeStateProps c s store.snapshot).1 = Except.ok nsp)
    (hcd : (computeDispatchProps c s store).1 = Except.ok ndp) :
    (render c s store).2.1 = Except.ok
        ⟨s.nextElemId, computeMergedProps c nsp ndp s.props, c.withRef⟩ ∧
    (render c s store).2.2
        = [Ev.computeState, Ev.computeDispatch, Ev.computeMerged,
           Ev.createElem] ∧
    (render c s store).1.stateProps = some nsp ∧
    (render c s store).1.dispatchProps = some ndp ∧
    (render c s store).1.mergedProps
        = some (computeMergedProps c nsp ndp s.props) ∧
    (render c s store).1.nextElemId = s.nextElemId + 1 ∧
    (updateStatePropsIfNeeded c s store.snapshot).1 = Except.ok true ∧
    (updateDispatchPropsIfNeeded c s store).1 = Except.ok true := by
  obtain ⟨stS, pr, spf, dpf, mpf, ownf, stcf, pref, errf, ref, subf,
    fmsf, dsff, fmdf, ddff, nidf⟩ := s
  dsimp only at hsp hdp hmp hre hpre herr hcs hcd ⊢
  subst hsp
  subst hdp
  subst hmp
  subst hre
  subst hpre
  subst herr
  have hcs0 : (computeStateProps c
      ⟨stS, pr, none, none, none, false, false, false, none, none,
        subf, fmsf, dsff, fmdf, ddff, nidf⟩ store.snapshot).1
      = Except.ok nsp :=
    (computeStateProps_fst_congr c
      ⟨stS, pr, none, none, none, ownf, stcf, false, none, none,
        subf, fmsf, dsff, fmdf, ddff, nidf⟩
      ⟨stS, pr, none, none, none, false, false, false, none, none,
        subf, fmsf, dsff, fmdf, ddff, nidf⟩
      store.snapshot rfl rfl rfl).trans hcs
  have h1 := updateStatePropsIfNeeded_fresh c
      ⟨stS, pr, none, none, none, false, false, false, none, none,
        subf, fmsf, dsff, fmdf, ddff, nidf⟩ store.snapshot nsp rfl hcs0
  obtain ⟨hA1, hA2, hA3, hA4, hA5, hA6, hA7, hA8, hA9, hA10, hA11,
    hA12, hA13, hA14⟩ :=
    computeStateProps_preserves c
      ⟨stS, pr, none, none, none, false, false, false, none, none,
        subf, fmsf, dsff, fmdf, ddff, nidf⟩ store.snapshot
  have hcd1 : (computeDispatchProps c
      ⟨stS, pr, some nsp, none, none, false, false, false, none, none, subf,
        (computeStateProps c
          ⟨stS, pr, none, none, none, false, false, false, none, none,
            subf, fmsf, dsff, fmdf, ddff, nidf⟩
          store.snapshot).2.finalMapState,
        (computeStateProps c
          ⟨stS, pr, none, none, none, false, false, false, none, none,
            subf, fmsf, dsff, fmdf, ddff, nidf⟩
          store.snapshot).2.doStatePropsDependOnOwnProps,
        fmdf, ddff, nidf⟩ store).1 = Except.ok ndp :=
    (computeDispatchProps_fst_congr c
      ⟨stS, pr, none, none, none, ownf, stcf, false, none, none,
        subf, fmsf, dsff, fmdf, ddff, nidf⟩
      ⟨stS, pr, some nsp, none, none, false, false, false, none, none, subf,
        (computeStateProps c
          ⟨stS, pr, none, none, none, false, false, false, none, none,
            subf, fmsf, dsff, fmdf, ddff, nidf⟩
          store.snapshot).2.finalMapState,
        (computeStateProps c
          ⟨stS, pr, none, none, none, false, false, false, none, none,
            subf, fmsf, dsff, fmdf, ddff, nidf⟩
          store.snapshot).2.doStatePropsDependOnOwnProps,
        fmdf, ddff, nidf⟩ store rfl rfl rfl).trans hcd
  have h2 := updateDispatchPropsIfNeeded_fresh c
      ⟨stS, pr, some nsp, none, none, false, false, false, none, none, subf,
        (computeStateProps c
          ⟨stS, pr, none, none, none, false, false, false, none, none,
            subf, fmsf, dsff, fmdf, ddff, nidf⟩
          store.snapshot).2.finalMapState,
        (computeStateProps c
          ⟨stS, pr, none, none, none, false, false, false, none, none,
            subf, fmsf, dsff, fmdf, ddff, nidf⟩
          store.snapshot).2.doStatePropsDependOnOwnProps,
        fmdf, ddff, nidf⟩ store ndp rfl hcd1
  obtain ⟨hB1, hB2, hB3, hB4, hB5, hB6, hB7, hB8, hB9, hB10, hB11,
    hB12, hB13, hB14⟩ :=
    computeDispatchProps_preserves c
      ⟨stS, pr, some nsp, none, none, false, false, false, none, none, subf,
        (computeStateProps c
          ⟨stS, pr, none, none, none, false, false, false, none, none,
            subf, fmsf, dsff, fmdf, ddff, nidf⟩
          store.snapshot).2.finalMapState,
        (computeStateProps c
          ⟨stS, pr, none, none, none, false, false, false, none, none,
            subf, fmsf, dsff, fmdf, ddff, nidf⟩
          store.snapshot).2.doStatePropsDependOnOwnProps,
        fmdf, ddff, nidf⟩ store
  have h3 := updateMergedPropsIfNeeded_fresh c
      ⟨stS, pr, some nsp, some ndp, none, false, false, false, none, none,
        subf,
        (computeStateProps c
          ⟨stS, pr, none, none, none, false, false, false, none, none,
            subf, fmsf, dsff, fmdf, ddff, nidf⟩
          store.snapshot).2.finalMapState,
        (computeStateProps c
          ⟨stS, pr, none, none, none, false, false, false, none, none,
            subf, fmsf, dsff, fmdf, ddff, nidf⟩
          store.snapshot).2.doStatePropsDependOnOwnProps,
        (computeDispatchProps c
          ⟨stS, pr, some nsp, none, none, false, false, false, none, none,
            subf,
            (computeStateProps c
              ⟨stS, pr, none, none, none, false, false, false, none, none,
                subf, fmsf, dsff, fmdf, ddff, nidf⟩
              store.snapshot).2.finalMapState,
            (computeStateProps c
              ⟨stS, pr, none, none, none, false, false, false, none, none,
                subf, fmsf, dsff, fmdf, ddff, nidf⟩
              store.snapshot).2.doStatePropsDependOnOwnProps,
            fmdf, ddff, nidf⟩ store).2.finalMapDispatch,
        (computeDispatchProps c
          ⟨stS, pr, some nsp, none, none, false, false, false, none, none,
            subf,
            (computeStateProps c
              ⟨stS, pr, none, none, none, false, false, false, none, none,
                subf, fmsf, dsff, fmdf, ddff, nidf⟩
              store.snapshot).2.finalMapState,
            (computeStateProps c
              ⟨stS, pr, none, none, none, false, false, false, none, none,
                subf, fmsf, dsff, fmdf, ddff, nidf⟩
              store.snapshot).2.doStatePropsDependOnOwnProps,
            fmdf, ddff, nidf⟩ store).2.doDispatchPropsDependOnOwnProps,
        nidf⟩ rfl
  have h4 := updateStatePropsIfNeeded_fresh c
      ⟨stS, pr, none, none, none, ownf, stcf, false, none, none,
        subf, fmsf, dsff, fmdf, ddff, nidf⟩ store.snapshot nsp rfl hcs
  have h5 := updateDispatchPropsIfNeeded_fresh c
      ⟨stS, pr, none, none, none, ownf, stcf, false, none, none,
        subf, fmsf, dsff, fmdf, ddff, nidf⟩ store ndp rfl hcd
  rw [render]
  simp [h1, h2, h3, h4, h5,
    hA1, hA2, hA3, hA4, hA5, hA6, hA7, hA8, hA9, hA10, hA11, hA12,
    hA13, hA14,
    hB1, hB2, hB3, hB4, hB5, hB6, hB7, hB8, hB9, hB10, hB11, hB12,
    hB13, hB14]

/-- Witness for C10: the first render of the freshly constructed instance
computes all three stages, reports changed at each, and creates element 0. -/
theorem C10_cleared_cache_full_recompute_witness :
    (render cfgQuiet stateFresh freshStore).2.1 = Except.ok
        ⟨stateFresh.nextElemId,
         computeMergedProps cfgQuiet [] [("dispatch", 0)] stateFresh.props,
         cfgQuiet.withRef⟩ ∧
    (render cfgQuiet stateFresh freshStore).2.2
        = [Ev.computeState, Ev.computeDispatch, Ev.computeMerged,
           Ev.createElem] ∧
    (render cfgQuiet stateFresh freshStore).1.stateProps = some [] ∧
    (render cfgQuiet stateFresh freshStore).1.dispatchProps
        = some [("dispatch", 0)] ∧
    (render cfgQuiet stateFresh freshStore).1.mergedProps
        = some (computeMergedProps cfgQuiet [] [("dispatch", 0)]
            stateFresh.props) ∧
    (render cfgQuiet stateFresh freshStore).1.nextElemId
        = stateFresh.nextElemId + 1 ∧
    (updateStatePropsIfNeeded cfgQuiet stateFresh
        freshStore.snapshot).1 = Except.ok true ∧
    (updateDispatchPropsIfNeeded cfgQuiet stateFresh freshStore).1
        = Except.ok true :=
  C10_cleared_cache_full_recompute cfgQuiet stateFresh freshStore
    [] [("dispatch", 0)] rfl rfl rfl rfl rfl rfl rfl rfl

theorem updateStatePropsIfNeeded_subscribed (c : ConnectConfig)
    (s : ConnectState) (snap : Nat) :
    (updateStatePropsIfNeeded c s snap).2.subscribed = s.subscribed := by
  have h := (computeStateProps_preserves c s snap).2.2.2.2.2.2.2.1
  rw [updateStatePropsIfNeeded]
  cases hpair : computeStateProps c s snap with
  | mk r s₁ =>
    rw [hpair] at h
    cases r with
    | error e => exact h
    | ok nxt =>
      cases hsp : s₁.stateProps with
      | none =>
        simp only [hsp]
        exact h
      | some prev =>
        cases hsh : shallowEqual nxt prev <;>
          (simp only [hsp, hsh]; simp; exact h)

theorem updateDispatchPropsIfNeeded_subscribed (c : ConnectConfig)
    (s : ConnectState) (store : Store) :
    (updateDispatchPropsIfNeeded c s store).2.subscribed = s.subscribed := by
  have h := (computeDispatchProps_preserves c s store).2.2.2.2.2.2.2.1
  rw [updateDispatchPropsIfNeeded]
  cases hpair : computeDispatchProps c s store with
  | mk r s₁ =>
    rw [hpair] at h
    cases r with
    | error e => exact h
    | ok nxt =>
      cases hdp : s₁.dispatchProps with
      | none =>
        simp only [hdp]
        exact h
      | some prev =>
        cases hsh : shallowEqual nxt prev <;>
          (simp only [hdp, hsh]; simp; exact h)

theorem updateMergedPropsIfNeeded_subscribed (c : ConnectConfig)
    (s : ConnectState) :
    (updateMergedPropsIfNeeded c s).2.subscribed = s.subscribed := by
  rw [updateMergedPropsIfNeeded]
  cases hm : s.mergedProps with
  | none => simp [hm]
  | some prev =>
    cases hc : checkMergedEquals c
        && shallowEqual (computeMergedProps c (s.stateProps.getD [])
          (s.dispatchProps.getD []) s.props) prev <;> simp [hm, hc]

theorem render_eq_alt (c : ConnectConfig) (s : ConnectState)
    (store : Store) : render c s store = renderAlt c s store := rfl

theorem renderStage1_subscribed (c : ConnectConfig) (s₀ : ConnectState)
    (pre su : Bool) (snap : Nat) :
    (renderStage1 c s₀ pre su snap).2.1.subscribed = s₀.subscribed := by
  rw [renderStage1]
  cases pre with
  | true => simp
  | false =>
    cases su with
    | false => simp
    | true =>
      cases hu : updateStatePropsIfNeeded c s₀ snap with
      | mk r s₁ =>
        have h := updateStatePropsIfNeeded_subscribed c s₀ snap
        rw [hu] at h
        exact h

theorem renderStage1_evs (c : ConnectConfig) (s₀ : ConnectState)
    (pre su : Bool) (snap : Nat) :
    ∀ e ∈ (renderStage1 c s₀ pre su snap).2.2, e = Ev.computeState := by
  rw [renderStage1]
  cases pre with
  | true => simp
  | false =>
    cases su with
    | false => simp
    | true =>
      cases hu : updateStatePropsIfNeeded c s₀ snap with
      | mk r s₁ => simp [hu]

theorem renderStage2_subscribed (c : ConnectConfig) (s₁ : ConnectState)
    (sd : Bool) (store : Store) (evs₁ : List Ev) :
    (renderStage2 c s₁ sd store evs₁).2.1.subscribed = s₁.subscribed := by
  rw [renderStage2]
  cases sd with
  | false => simp
  | true =>
    cases hu : updateDispatchPropsIfNeeded c s₁ store with
    | mk r s₂ =>
      have h := updateDispatchPropsIfNeeded_subscribed c s₁ store
      rw [hu] at h
      exact h

theorem renderStage2_evs (c : ConnectConfig) (s₁ : ConnectState)
    (sd : Bool) (store : Store) (evs₁ : List Ev) :
    ∀ e ∈ (renderStage2 c s₁ sd store evs₁).2.2,
      e ∈ evs₁ ∨ e = Ev.computeDispatch := by
  rw [renderStage2]
  cases sd with
  | false => exact fun e he => Or.inl he
  | true =>
    cases hu : updateDispatchPropsIfNeeded c s₁ store with
    | mk r s₂ =>
      intro e he
      simp at he
      rcases he with h | h
      · exact Or.inl h
      · exact Or.inr h

theorem renderStage3_subscribed (c : ConnectConfig) (s₂ : ConnectState)
    (doMerge : Bool) (evs₂ : List Ev) :
    (renderStage3 c s₂ doMerge evs₂).2.1.subscribed = s₂.subscribed := by
  rw [renderStage3]
  cases doMerge with
  | false => simp
  | true =>
    cases hu : updateMergedPropsIfNeeded c s₂ with
    | mk b s' =>
      have h := updateMergedPropsIfNeeded_subscribed c s₂
      rw [hu] at h
      exact h

theorem renderStage3_evs (c : ConnectConfig) (s₂ : ConnectState)
    (doMerge : Bool) (evs₂ : List Ev) :
    ∀ e ∈ (renderStage3 c s₂ doMerge evs₂).2.2,
      e ∈ evs₂ ∨ e = Ev.computeMerged := by
  rw [renderStage3]
  cases doMerge with
  | false => exact fun e he => Or.inl he
  | true =>
    cases hu : updateMergedPropsIfNeeded c s₂ with
    | mk b s' =>
      intro e he
      simp at he
      rcases he with h | h
      · exact Or.inl h
      · exact Or.inr h

theorem renderCore_subscribed_evs (c : ConnectConfig) (s₀ : ConnectState)
    (store : Store) (pre su sd own : Bool) (relem : Option Elem) :
    (renderCore c s₀ store pre su sd own relem).1.subscribed
        = s₀.subscribed ∧
    ∀ e ∈ (renderCore c s₀ store pre su sd own relem).2.2,
      e = Ev.computeState ∨ e = Ev.computeDispatch ∨ e = Ev.computeMerged
        ∨ e = Ev.createElem := by
  rw [renderCore]
  cases hu1 : renderStage1 c s₀ pre su store.snapshot with
  | mk r1 rest1 =>
    obtain ⟨s₁, evs₁⟩ := rest1
    have hs1 : s₁.subscribed = s₀.subscribed := by
      have h := renderStage1_subscribed c s₀ pre su store.snapshot
      rw [hu1] at h
      exact h
    have he1 : ∀ e ∈ evs₁, e = Ev.computeState := by
      have h := renderStage1_evs c s₀ pre su store.snapshot
      rw [hu1] at h
      exact h
    cases r1 with
    | error e =>
      exact ⟨hs1, fun ev hev => Or.inl (he1 ev hev)⟩
    | ok hsc =>
      dsimp only
      cases hu2 : renderStage2 c s₁ sd store evs₁ with
      | mk r2 rest2 =>
        obtain ⟨s₂, evs₂⟩ := rest2
        have hs2 : s₂.subscribed = s₀.subscribed := by
          have h := renderStage2_subscribed c s₁ sd store evs₁
          rw [hu2] at h
          exact h.trans hs1
        have he2 : ∀ e ∈ evs₂, e = Ev.computeState ∨ e = Ev.computeDispatch := by
          have h := renderStage2_evs c s₁ sd store evs₁
          rw [hu2] at h
          intro ev hev
          rcases h ev hev with hh | hh
          · exact Or.inl (he1 ev hh)
          · exact Or.inr hh
        cases r2 with
        | error e =>
          exact ⟨hs2, fun ev hev => (he2 ev hev).imp id Or.inl⟩
        | ok hdc =>
          dsimp only
          cases hu3 : renderStage3 c s₂ (hsc || hdc || own) evs₂ with
          | mk hmc rest3 =>
            obtain ⟨s₃, evs₃⟩ := rest3
            have hs3 : s₃.subscribed = s₀.subscribed := by
              have h := renderStage3_subscribed c s₂ (hsc || hdc || own) evs₂
              rw [hu3] at h
              exact h.trans hs2
            have he3 : ∀ e ∈ evs₃,
                e = Ev.computeState ∨ e = Ev.computeDispatch
                  ∨ e = Ev.computeMerged := by
              have h := renderStage3_evs c s₂ (hsc || hdc || own) evs₂
              rw [hu3] at h
              intro ev hev
              rcases h ev hev with hh | hh
              · exact (he2 ev hh).imp id Or.inl
              · exact Or.inr (Or.inr hh)
            have hcreate : ∀ ev ∈ evs₃ ++ [Ev.createElem],
                ev = Ev.computeState ∨ ev = Ev.computeDispatch
                  ∨ ev = Ev.computeMerged ∨ ev = Ev.createElem := by
              intro ev hev
              rcases List.mem_append.mp hev with h | h
              · exact (he3 ev h).imp id (Or.imp id Or.inl)
              · simp at h
                exact Or.inr (Or.inr (Or.inr h))
            cases hmc with
            | false =>
              cases relem with
              | some el =>
                exact ⟨hs3, fun ev hev =>
                  (he3 ev hev).imp id (Or.imp id Or.inl)⟩
              | none => exact ⟨hs3, hcreate⟩
            | true => exact ⟨hs3, hcreate⟩

theorem render_subscribed_evs (c : ConnectConfig) (s : ConnectState)
    (store : Store) :
    (render c s store).1.subscribed = s.subscribed ∧
    ∀ e ∈ (render c s store).2.2,
      e = Ev.computeState ∨ e = Ev.computeDispatch ∨ e = Ev.computeMerged
        ∨ e = Ev.createElem := by
  rw [render_eq_alt, renderAlt]
  cases herr : s.statePropsPrecalculationError with
  | some e => exact ⟨rfl, by simp⟩
  | none => exact renderCore_subscribed_evs c _ store _ _ _ _ _

theorem stepOp_unsubscribed (c : ConnectConfig) (s : ConnectState) (op : Op)
    (hm : c.mapStateToProps = none) (hsub : s.subscribed = false) :
    (stepOp c s op).1.subscribed = false ∧
    Ev.subscribeStore ∉ (stepOp c s op).2 ∧
    Ev.scheduleRender ∉ (stepOp c s op).2 := by
  cases op with
  | mount store =>
    have hss : shouldSubscribe c = false := by
      simp [shouldSubscribe, hm]
    simp [stepOp, trySubscribe, hss, hsub]
  | unmount =>
    refine ⟨?_, by simp [stepOp], by simp [stepOp]⟩
    show (componentWillUnmount s).subscribed = false
    unfold componentWillUnmount clearCache tryUnsubscribe
    by_cases h : s.subscribed <;> simp [h, hsub]
  | notify store =>
    simp [stepOp, handleChange, hsub]
  | receiveProps p =>
    by_cases hc : (!c.pure || !shallowEqual p s.props) = true <;>
      simp [stepOp, componentWillReceiveProps, hc, hsub]
  | doRender store =>
    have h := render_subscribed_evs c s store
    refine ⟨h.1.trans hsub, ?_, ?_⟩
    · intro hmem
      rcases h.2 Ev.subscribeStore hmem with h' | h' | h' | h' <;> simp at h'
    · intro hmem
      rcases h.2 Ev.scheduleRender hmem with h' | h' | h' | h' <;> simp at h'

/-- C7: for a connected component created without a state-mapper, over any
sequence of lifecycle events (mount, store notifications, own-prop
updates, renders, unmount) starting unsubscribed, the instance never calls
store.subscribe, stays unsubscribed, and never schedules a state-driven
re-render; moreover the effective state mapper is the default one, which
returns the empty mapping on every input. -/
theorem C7_no_state_mapper_never_subscribes (c : ConnectConfig)
    (s : ConnectState) (ops : List Op)
    (hm : c.mapStateToProps = none)
    (hsub : s.subscribed = false) :
    (runOps c s ops).1.subscribed = false ∧
    Ev.subscribeStore ∉ (runOps c s ops).2 ∧
    Ev.scheduleRender ∉ (runOps c s ops).2 ∧
    mapStateArg c = MapperArg.plain defaultMapStateToProps ∧
    (∀ snap pr, defaultMapStateToProps.run snap pr = Except.ok []) := by
  have main : ∀ (l : List Op) (t : ConnectState), t.subscribed = false →
      (runOps c t l).1.subscribed = false ∧
      Ev.subscribeStore ∉ (runOps c t l).2 ∧
      Ev.scheduleRender ∉ (runOps c t l).2 := by
    intro l
    induction l with
    | nil =>
      intro t ht
      rw [runOps]
      exact ⟨ht, by simp, by simp⟩
    | cons op rest ih =>
      intro t ht
      obtain ⟨h1, h2, h3⟩ := stepOp_unsubscribed c t op hm ht
      obtain ⟨g1, g2, g3⟩ := ih (stepOp c t op).1 h1
      rw [runOps]
      refine ⟨g1, ?_, ?_⟩
      · intro hmem
        rcases List.mem_append.mp hmem with h | h
        · exact h2 h
        · exact g2 h
      · intro hmem
        rcases List.mem_append.mp hmem with h | h
        · exact h3 h
        · exact g3 h
  obtain ⟨h1, h2, h3⟩ := main ops s hsub
  refine ⟨h1, h2, h3, ?_, fun snap pr => rfl⟩
  simp [mapStateArg, hm]

/-- Witness for C7: over the concrete mapperless lifecycle the instance
never subscribes and no re-render is ever scheduled by the listener. -/
theorem C7_no_state_mapper_never_subscribes_witness :
    (runOps cfgNoMapper stateNoMapper opsNoMapper).1.subscribed = false ∧
    Ev.subscribeStore ∉ (runOps cfgNoMapper stateNoMapper opsNoMapper).2 ∧
    Ev.scheduleRender ∉ (runOps cfgNoMapper stateNoMapper opsNoMapper).2 ∧
    mapStateArg cfgNoMapper = MapperArg.plain defaultMapStateToProps ∧
    (∀ snap pr, defaultMapStateToProps.run snap pr = Except.ok []) :=
  C7_no_state_mapper_never_subscribes cfgNoMapper stateNoMapper opsNoMapper
    rfl rfl
